import Mathlib

/-!
Shallow embedding of the publish pipeline of `src/commands/publish/mod.rs`
(wrangler). External collaborators (HTTP transport, filesystem, the KV
namespace provisioner, the bucket bulk-writer, the script packager, route
registration, subdomain lookup) are modelled as oracle functions collected in
a `Collaborators` record; in-place mutation of the deployment target is
modelled by explicit state passing; the network and filesystem calls a run
performs are recorded in an event trace.
-/

set_option autoImplicit false

namespace Wrangler

/-- Key/value binding, mirroring KvNamespace: binding name, namespace id,
optional bucket directory path. -/
structure KvNamespace where
  binding : String
  id : String
  bucket : Option String
deriving Repr, DecidableEq

/-- Static site configuration, mirroring Site: the bucket directory path. -/
structure Site where
  bucket : String
deriving Repr, DecidableEq

/-- Deployment descriptor, mirroring Target from crate settings. -/
structure Target where
  account_id : String
  name : String
  workers_dev : Bool
  zone_id : Option String
  route : Option String
  kv_namespaces : Option (List KvNamespace)
  site : Option Site
deriving Repr, DecidableEq

/-- Modelled from the spec: the Target method kv_namespaces() (crate settings,
not under src) returns the ordered sequence of bindings; an absent option is
the empty sequence. -/
def Target.kvNamespacesList (t : Target) : List KvNamespace :=
  t.kv_namespaces.getD []

/-- Modelled from the spec: the Target method add_kv_namespace (crate
settings, not under src) appends a KeyValueBinding, mutating the target in
place; here the updated target is returned. -/
def Target.add_kv_namespace (t : Target) (ns : KvNamespace) : Target :=
  ⟨t.account_id, t.name, t.workers_dev, t.zone_id, t.route,
    some (t.kvNamespacesList ++ [ns]), t.site⟩

/-- Aggregated validation error, mirroring the components interpolated into
the bail message of validate_target_required_fields_present: the accumulated
missing field names, the pluralization words, and the destination. -/
structure MissingFieldsError where
  fields : List String
  fieldWord : String
  isAre : String
  destination : String
deriving Repr, DecidableEq

/-- Failure values of the pipeline; each bail site or collaborator failure of
the source maps to a distinct constructor carrying the interpolated data. -/
inductive PublishError where
  | missingFields (e : MissingFieldsError)
  | invalidWorkerName (name : String)
  | provisionFailed (msg : String)
  | bucketPathEmpty
  | bucketMissing (path : String)
  | bucketNotDirectory (path : String)
  | syncFailed (msg : String)
  | buildFormFailed (msg : String)
  | remote (status : Nat) (body : String)
  | missingRouteConfig
  | routePublishFailed (msg : String)
  | noSubdomain (msg : String)
deriving Repr, DecidableEq

/-- Accumulation performed by the body of
validate_target_required_fields_present: the local missing_fields vector
(filled in source order) together with the destination string chosen by the
subdomain-mode flag. -/
def missingFieldsAndDestination (t : Target) : List String × String :=
  let missing_fields : List String := []
  let missing_fields :=
    if t.account_id.isEmpty then missing_fields ++ ["account_id"]
    else missing_fields
  let missing_fields :=
    if t.name.isEmpty then missing_fields ++ ["name"] else missing_fields
  let missing_fields :=
    match t.kv_namespaces with
    | some kv_namespaces =>
      kv_namespaces.foldl
        (fun acc kv =>
          let acc :=
            if kv.binding.isEmpty then acc ++ ["kv-namespace binding"]
            else acc
          if kv.id.isEmpty then acc ++ ["kv-namespace id"] else acc)
        missing_fields
    | none => missing_fields
  if !t.workers_dev then
    let missing_fields :=
      if (t.zone_id.getD "").isEmpty then missing_fields ++ ["zone_id"]
      else missing_fields
    let missing_fields :=
      if (t.route.getD "").isEmpty then missing_fields ++ ["route"]
      else missing_fields
    (missing_fields, "a route")
  else
    (missing_fields, "your subdomain")

/-- Embedding of validate_target_required_fields_present: accumulates every
missing required field, then fails with one aggregated error carrying the
list, the pluralization and the destination, or succeeds when nothing is
missing. -/
def validate_target_required_fields_present (t : Target) :
    Except MissingFieldsError Unit :=
  let missing_fields := (missingFieldsAndDestination t).1
  let destination := (missingFieldsAndDestination t).2
  let words :=
    if missing_fields.length ≥ 2 then ("fields", "are")
    else if missing_fields.length = 1 then ("field", "is")
    else ("", "")
  if !missing_fields.isEmpty then
    .error ⟨missing_fields, words.1, words.2, destination⟩
  else
    .ok ()

/-- Specification-side list of required-field violations, transcribed from
the declarative checklist of the spec (section 4.1): account identifier,
script name, per-binding name and namespace identifier, and, in route mode
only, zone identifier and route pattern. -/
def requiredFieldViolations (t : Target) : List String :=
  (if t.account_id.isEmpty then ["account_id"] else []) ++
  (if t.name.isEmpty then ["name"] else []) ++
  (t.kvNamespacesList.flatMap fun kv =>
    (if kv.binding.isEmpty then ["kv-namespace binding"] else []) ++
    (if kv.id.isEmpty then ["kv-namespace id"] else [])) ++
  (if t.workers_dev then []
   else
    (if (t.zone_id.getD "").isEmpty then ["zone_id"] else []) ++
    (if (t.route.getD "").isEmpty then ["route"] else []))

/-- Destination name used in the validation message, selected by the
subdomain-mode flag. -/
def destinationOf (t : Target) : String :=
  if t.workers_dev then "your subdomain" else "a route"

/-- Namespace returned by the provisioning collaborator kv::namespace::site. -/
structure SiteNamespace where
  id : String
deriving Repr, DecidableEq

/-- Multipart upload payload built by the script packager; its contents are
opaque to the orchestrator. -/
structure UploadForm where
  content : String
deriving Repr, DecidableEq

/-- HTTP response as seen by the pipeline: a status code and a body. -/
structure HttpResponse where
  status : Nat
  body : String
deriving Repr, DecidableEq

/-- POST request sent by publish_to_subdomain: url, Content-type header
value, body. -/
structure PostRequest where
  url : String
  contentType : String
  body : String
deriving Repr, DecidableEq

/-- Modelled from the spec: Route (module route, not under src) is
constructed from the zone and route pattern of the target. -/
structure Route where
  zoneId : String
  pattern : String
deriving Repr, DecidableEq

/-- Modelled from the spec: Route::new (module route, not under src) builds
the Route from the zone identifier and route pattern of the target, failing
when either is absent. -/
def Route.new (t : Target) : Except PublishError Route :=
  match t.zone_id, t.route with
  | some z, some p => .ok ⟨z, p⟩
  | _, _ => .error .missingRouteConfig

/-- Network and filesystem calls a run performs, in order. -/
inductive Event where
  | validateDescriptor
  | provisionNamespace (accountId scriptName : String) (preview : Bool)
  | syncBucket (namespaceId path : String)
  | uploadScript (url : String)
  | registerRoute (route : Route)
  | subdomainLookup (accountId : String)
  | enableSubdomain (request : PostRequest)
  | success (pattern : String)
deriving Repr, DecidableEq

/-- External collaborators of the pipeline, as oracle functions: the worker
name check, the namespace provisioner, the filesystem, the bucket
bulk-writer, the script packager, the upload endpoint, the subdomain lookup,
the subdomain-enable endpoint and route registration. -/
structure Collaborators where
  validateWorkerName : String → Except PublishError Unit
  provisionSite : Target → Bool → Except PublishError SiteNamespace
  pathExists : String → Bool
  pathIsDir : String → Bool
  syncBucket : String → String → Except PublishError Unit
  buildForm : Target → Except PublishError UploadForm
  putScript : String → UploadForm → HttpResponse
  subdomainGet : String → Except PublishError String
  postEnable : PostRequest → HttpResponse
  routePublish : Route → Except PublishError Unit

/-- Success predicate of reqwest StatusCode::is_success: 2xx. -/
def isSuccessStatus (s : Nat) : Bool :=
  decide (200 ≤ s) && decide (s < 300)

/-- Embedding of bind_static_site_contents: provision the site namespace
(network call recorded in the trace), then append the reserved static-content
binding to the target; on provisioning failure the target is unchanged. -/
def bind_static_site_contents (c : Collaborators) (t : Target)
    (site_config : Site) (preview : Bool) :
    Except PublishError Unit × List Event × Target :=
  match c.provisionSite t preview with
  | .error e =>
    (.error e, [Event.provisionNamespace t.account_id t.name preview], t)
  | .ok site_namespace =>
    (.ok (), [Event.provisionNamespace t.account_id t.name preview],
      t.add_kv_namespace ⟨"__STATIC_CONTENT", site_namespace.id,
        some site_config.bucket⟩)

/-- Loop body of upload_buckets over the binding list: for each binding with
a bucket, check the path preconditions in order, then invoke the bulk-write
collaborator (recorded in the trace). -/
def uploadBucketsLoop (c : Collaborators) :
    List KvNamespace → Except PublishError Unit × List Event
  | [] => (.ok (), [])
  | ns :: rest =>
    match ns.bucket with
    | none => uploadBucketsLoop c rest
    | some bucket =>
      if bucket.isEmpty then
        (.error .bucketPathEmpty, [])
      else if !c.pathExists bucket then
        (.error (.bucketMissing bucket), [])
      else if !c.pathIsDir bucket then
        (.error (.bucketNotDirectory bucket), [])
      else
        match c.syncBucket ns.id bucket with
        | .error e => (.error e, [Event.syncBucket ns.id bucket])
        | .ok _ =>
          let r := uploadBucketsLoop c rest
          (r.1, Event.syncBucket ns.id bucket :: r.2)

/-- Embedding of upload_buckets: iterate the binding list of the target. -/
def upload_buckets (c : Collaborators) (t : Target) :
    Except PublishError Unit × List Event :=
  uploadBucketsLoop c t.kvNamespacesList

/-- Script upload address of build_and_publish_script. -/
def worker_addr (t : Target) : String :=
  "https://api.cloudflare.com/client/v4/accounts/" ++ t.account_id ++
    "/workers/scripts/" ++ t.name

/-- Subdomain-enable address of publish_to_subdomain. -/
def sd_worker_addr (t : Target) : String :=
  "https://api.cloudflare.com/client/v4/accounts/" ++ t.account_id ++
    "/workers/scripts/" ++ t.name ++ "/subdomain"

/-- Embedding of build_subdomain_request: the compact serialization that
serde_json produces for the fixed JSON object with the single field
"enabled" set to true. -/
def build_subdomain_request : String := "\x7b\"enabled\":true\x7d"

/-- Embedding of publish_to_subdomain: look up the registered subdomain of
the account (fatal if the lookup fails), then POST the fixed enable body and,
on a 2xx response, return the composed subdomain URL. -/
def publish_to_subdomain (c : Collaborators) (t : Target) :
    Except PublishError String × List Event :=
  match c.subdomainGet t.account_id with
  | .error e => (.error e, [Event.subdomainLookup t.account_id])
  | .ok subdomain =>
    let req : PostRequest :=
      ⟨sd_worker_addr t, "application/json", build_subdomain_request⟩
    let res := c.postEnable req
    if !isSuccessStatus res.status then
      (.error (.remote res.status res.body),
        [Event.subdomainLookup t.account_id, Event.enableSubdomain req])
    else
      (.ok ("https://" ++ t.name ++ "." ++ subdomain ++ ".workers.dev"),
        [Event.subdomainLookup t.account_id, Event.enableSubdomain req])

/-- Embedding of build_and_publish_script: build the upload form, PUT it to
the worker address (fatal on a non-2xx status, carrying status and body),
then resolve exposure through the route branch or the subdomain branch and
record the success message with the resolved pattern. -/
def build_and_publish_script (c : Collaborators) (t : Target) :
    Except PublishError Unit × List Event :=
  match c.buildForm t with
  | .error e => (.error e, [])
  | .ok script_upload_form =>
    let res := c.putScript (worker_addr t) script_upload_form
    if !isSuccessStatus res.status then
      (.error (.remote res.status res.body),
        [Event.uploadScript (worker_addr t)])
    else
      if !t.workers_dev then
        match Route.new t with
        | .error e => (.error e, [Event.uploadScript (worker_addr t)])
        | .ok route =>
          match c.routePublish route with
          | .error e =>
            (.error e,
              [Event.uploadScript (worker_addr t), Event.registerRoute route])
          | .ok _ =>
            (.ok (),
              [Event.uploadScript (worker_addr t), Event.registerRoute route,
                Event.success route.pattern])
      else
        match publish_to_subdomain c t with
        | (.error e, evs) =>
          (.error e, Event.uploadScript (worker_addr t) :: evs)
        | (.ok pattern, evs) =>
          (.ok (),
            Event.uploadScript (worker_addr t) ::
              (evs ++ [Event.success pattern]))

/-- Stages of publish after descriptor validation: worker-name check, the
optional static-site binding, bucket synchronization, then script build,
upload and exposure. -/
def publishStages (c : Collaborators) (t : Target) :
    Except PublishError Unit × List Event × Target :=
  match c.validateWorkerName t.name with
  | .error e => (.error e, [], t)
  | .ok _ =>
    let afterBind :=
      match t.site with
      | some site_config => bind_static_site_contents c t site_config false
      | none => (.ok (), [], t)
    match afterBind with
    | (.error e, evs, t1) => (.error e, evs, t1)
    | (.ok _, evs, t1) =>
      match upload_buckets c t1 with
      | (.error e, evsU) => (.error e, evs ++ evsU, t1)
      | (.ok _, evsU) =>
        let r := build_and_publish_script c t1
        (r.1, evs ++ evsU ++ r.2, t1)

/-- Embedding of publish: validate the descriptor first (recorded in the
trace), then run the remaining stages. -/
def publish (c : Collaborators) (t : Target) :
    Except PublishError Unit × List Event × Target :=
  match validate_target_required_fields_present t with
  | .error e => (.error (.missingFields e), [Event.validateDescriptor], t)
  | .ok _ =>
    let r := publishStages c t
    (r.1, Event.validateDescriptor :: r.2.1, r.2.2)

/-! Concrete inputs used to exercise the theorems. -/

/-- Route-mode target that is complete except for zone_id and route. -/
def tRouteMissing : Target :=
  ⟨"acct", "script", false, none, none, none, none⟩

/-- Subdomain-mode target with all required fields present, an absent
zone_id and an empty route. -/
def tSubdomainOk : Target :=
  ⟨"A", "S", true, none, some "", some [⟨"b", "i", none⟩], none⟩

/-- Route-mode target with zone and route set. -/
def tRouteOk : Target :=
  ⟨"A", "S", false, some "Z", some "example.com/*", none, none⟩

/-- Target whose single binding declares an empty bucket path. -/
def tEmptyBucket : Target :=
  ⟨"A", "S", true, none, none, some [⟨"b", "i", some ""⟩], none⟩

/-- Site configuration pointing at a public directory. -/
def siteEx : Site := ⟨"public"⟩

/-- Collaborators for which every external call succeeds. -/
def cOk : Collaborators :=
  ⟨fun _ => .ok (), fun _ _ => .ok ⟨"site-ns"⟩, fun _ => true, fun _ => true,
    fun _ _ => .ok (), fun _ => .ok ⟨"form"⟩, fun _ _ => ⟨200, "ok"⟩,
    fun _ => .ok "foo", fun _ => ⟨200, "ok"⟩, fun _ => .ok ()⟩

/-- Collaborators whose script upload endpoint answers 500. -/
def cUploadFails : Collaborators :=
  ⟨fun _ => .ok (), fun _ _ => .ok ⟨"site-ns"⟩, fun _ => true, fun _ => true,
    fun _ _ => .ok (), fun _ => .ok ⟨"form"⟩, fun _ _ => ⟨500, "boom"⟩,
    fun _ => .ok "foo", fun _ => ⟨200, "ok"⟩, fun _ => .ok ()⟩

/-- Collaborators whose namespace provisioner fails. -/
def cProvisionFails : Collaborators :=
  ⟨fun _ => .ok (), fun _ _ => .error (.provisionFailed "down"),
    fun _ => true, fun _ => true, fun _ _ => .ok (), fun _ => .ok ⟨"form"⟩,
    fun _ _ => ⟨200, "ok"⟩, fun _ => .ok "foo", fun _ => ⟨200, "ok"⟩,
    fun _ => .ok ()⟩

/-- Number of bindings of a target that carry the reserved static-content
binding name. -/
def staticContentCount (t : Target) : Nat :=
  t.kvNamespacesList.countP (fun kv => kv.binding == "__STATIC_CONTENT")

/-! Helper lemmas. -/

lemma ite_append_eq (c : Prop) [Decidable c] (l a : List String) :
    (if c then l ++ a else l) = l ++ (if c then a else []) := by
  split <;> simp

lemma kvFold_eq (kvs : List KvNamespace) (init : List String) :
    kvs.foldl
      (fun acc kv =>
        let acc :=
          if kv.binding.isEmpty then acc ++ ["kv-namespace binding"] else acc
        if kv.id.isEmpty then acc ++ ["kv-namespace id"] else acc)
      init =
    init ++ kvs.flatMap (fun kv =>
      (if kv.binding.isEmpty then ["kv-namespace binding"] else []) ++
      (if kv.id.isEmpty then ["kv-namespace id"] else [])) := by
  induction kvs generalizing init with
  | nil => simp
  | cons kv rest ih =>
    rw [List.foldl_cons, ih, List.flatMap_cons]
    by_cases h1 : kv.binding.isEmpty <;> by_cases h2 : kv.id.isEmpty <;>
      simp [h1, h2]

lemma missingFields_fst_eq (t : Target) :
    (missingFieldsAndDestination t).1 = requiredFieldViolations t := by
  obtain ⟨acc, nm, wd, zid, rt, kvs, st⟩ := t
  simp only [missingFieldsAndDestination, requiredFieldViolations,
    Target.kvNamespacesList]
  cases kvs <;> cases wd <;>
    by_cases h1 : acc.isEmpty <;> by_cases h2 : nm.isEmpty <;>
    by_cases h3 : (zid.getD "").isEmpty <;>
    by_cases h4 : (rt.getD "").isEmpty <;>
    simp [h1, h2, h3, h4, kvFold_eq, List.append_assoc]

lemma missingFields_snd_eq (t : Target) :
    (missingFieldsAndDestination t).2 = destinationOf t := by
  obtain ⟨acc, nm, wd, zid, rt, kvs, st⟩ := t
  simp only [missingFieldsAndDestination, destinationOf]
  cases wd <;> simp

/-- Restatement of the validator in terms of the specification-side
violation list: the error carries exactly that list, the pluralization
matching its length, and the destination of the chosen mode. -/
lemma validate_eq (t : Target) :
    validate_target_required_fields_present t =
      (if (requiredFieldViolations t).isEmpty then .ok ()
       else .error ⟨requiredFieldViolations t,
        if (requiredFieldViolations t).length ≥ 2 then "fields"
        else if (requiredFieldViolations t).length = 1 then "field" else "",
        if (requiredFieldViolations t).length ≥ 2 then "are"
        else if (requiredFieldViolations t).length = 1 then "is" else "",
        destinationOf t⟩) := by
  simp only [validate_target_required_fields_present, missingFields_fst_eq,
    missingFields_snd_eq]
  by_cases h : (requiredFieldViolations t).isEmpty <;>
    simp [h, apply_ite Prod.fst, apply_ite Prod.snd]

/-- C1: a target missing N required fields (N at least 1) fails validation
with a single aggregated error listing exactly those N field names, with
singular grammar (field/is) when N = 1 and plural grammar (fields/are) when
N is 2 or more, naming the destination "a route" when workers_dev is false
and "your subdomain" when it is true. -/
theorem validate_enumerates_missing_fields (t : Target)
    (h : requiredFieldViolations t ≠ []) :
    validate_target_required_fields_present t =
      .error ⟨requiredFieldViolations t,
        if (requiredFieldViolations t).length = 1 then "field" else "fields",
        if (requiredFieldViolations t).length = 1 then "is" else "are",
        if t.workers_dev then "your subdomain" else "a route"⟩ := by
  rw [validate_eq]
  have h0 : (requiredFieldViolations t).length ≠ 0 := by simpa using h
  by_cases hl : (requiredFieldViolations t).length = 1
  · simp [List.isEmpty_iff, h, hl, destinationOf]
  · have h2 : (requiredFieldViolations t).length ≥ 2 := by omega
    simp [List.isEmpty_iff, h, hl, h2, destinationOf]

/-- Witness for C1: the route-mode target missing only zone_id and route
fails listing exactly both names, with plural grammar and destination
"a route". -/
theorem validate_enumerates_missing_fields_witness :
    requiredFieldViolations tRouteMissing ≠ [] ∧
    validate_target_required_fields_present tRouteMissing =
      .error ⟨["zone_id", "route"], "fields", "are", "a route"⟩ := by
  refine ⟨by decide, ?_⟩
  have h := validate_enumerates_missing_fields tRouteMissing (by decide)
  simpa [show requiredFieldViolations tRouteMissing = ["zone_id", "route"]
    from by decide] using h

/-- C2: a subdomain-mode target whose account identifier, script name and
per-binding names and namespace identifiers are all non-empty passes
validation, whatever zone_id and route hold. -/
theorem validate_subdomain_mode_succeeds (t : Target)
    (hw : t.workers_dev = true) (ha : t.account_id ≠ "") (hn : t.name ≠ "")
    (hkv : ∀ kv ∈ t.kvNamespacesList, kv.binding ≠ "" ∧ kv.id ≠ "") :
    validate_target_required_fields_present t = .ok () := by
  rw [validate_eq]
  have hrv : requiredFieldViolations t = [] := by
    have hfm : (t.kvNamespacesList.flatMap fun kv =>
        (if kv.binding.isEmpty then ["kv-namespace binding"] else []) ++
        (if kv.id.isEmpty then ["kv-namespace id"] else [])) = [] := by
      rw [List.flatMap_eq_nil_iff]
      intro kv hmem
      obtain ⟨hb, hi⟩ := hkv kv hmem
      simp [String.isEmpty_iff, hb, hi]
    simp [requiredFieldViolations, hw, String.isEmpty_iff, ha, hn, hfm]
    exact hkv
  simp [hrv]

/-- Witness for C2: the concrete subdomain-mode target with absent zone_id
and empty route passes validation. -/
theorem validate_subdomain_mode_succeeds_witness :
    tSubdomainOk.workers_dev = true ∧
    validate_target_required_fields_present tSubdomainOk = .ok () :=
  ⟨by decide,
    validate_subdomain_mode_succeeds tSubdomainOk (by decide) (by decide)
      (by decide) (by decide)⟩

/-- C3: when provisioning succeeds (invoked with preview false, as publish
does), bind_static_site_contents appends exactly one binding named
__STATIC_CONTENT carrying the provisioned namespace id and the bucket of the
site configuration, and every pre-existing binding is unchanged. -/
theorem bind_appends_single_static_content_binding (c : Collaborators)
    (t : Target) (sc : Site) (ns : SiteNamespace)
    (hprov : c.provisionSite t false = .ok ns) :
    bind_static_site_contents c t sc false =
      (.ok (), [Event.provisionNamespace t.account_id t.name false],
        t.add_kv_namespace ⟨"__STATIC_CONTENT", ns.id, some sc.bucket⟩) ∧
    (t.add_kv_namespace
        ⟨"__STATIC_CONTENT", ns.id, some sc.bucket⟩).kvNamespacesList =
      t.kvNamespacesList ++ [⟨"__STATIC_CONTENT", ns.id, some sc.bucket⟩] := by
  constructor
  · simp [bind_static_site_contents, hprov]
  · simp [Target.add_kv_namespace, Target.kvNamespacesList]

/-- Witness for C3: binding the concrete target appends the reserved
binding with namespace id site-ns and bucket public. -/
theorem bind_appends_single_static_content_binding_witness :
    bind_static_site_contents cOk tSubdomainOk siteEx false =
      (.ok (), [Event.provisionNamespace "A" "S" false],
        tSubdomainOk.add_kv_namespace
          ⟨"__STATIC_CONTENT", "site-ns", some "public"⟩) ∧
    (tSubdomainOk.add_kv_namespace
        ⟨"__STATIC_CONTENT", "site-ns", some "public"⟩).kvNamespacesList =
      [⟨"b", "i", none⟩, ⟨"__STATIC_CONTENT", "site-ns", some "public"⟩] := by
  have h := bind_appends_single_static_content_binding cOk tSubdomainOk
    siteEx ⟨"site-ns"⟩ rfl
  exact ⟨h.1, by simpa using h.2⟩

/-- C9: when the provisioning collaborator fails, bind_static_site_contents
returns that error and the target, its binding list included, is exactly
what it was before the call. -/
theorem bind_provision_failure_leaves_target_unchanged (c : Collaborators)
    (t : Target) (sc : Site) (preview : Bool) (e : PublishError)
    (hprov : c.provisionSite t preview = .error e) :
    bind_static_site_contents c t sc preview =
      (.error e, [Event.provisionNamespace t.account_id t.name preview],
        t) := by
  simp [bind_static_site_contents, hprov]

/-- Witness for C9: a failing provisioner leaves the concrete target
untouched and surfaces its error. -/
theorem bind_provision_failure_leaves_target_unchanged_witness :
    bind_static_site_contents cProvisionFails tSubdomainOk siteEx false =
      (.error (.provisionFailed "down"),
        [Event.provisionNamespace "A" "S" false], tSubdomainOk) :=
  bind_provision_failure_leaves_target_unchanged cProvisionFails
    tSubdomainOk siteEx false (.provisionFailed "down") rfl

/-- C10: re-invoking bind_static_site_contents on an already-bound target
appends a second __STATIC_CONTENT entry: after two successful invocations
the binding list holds two more entries with that name than before, so the
append is neither deduplicated nor an idempotent upsert. -/
theorem bind_rebinding_appends_duplicate (c : Collaborators) (t : Target)
    (sc sc2 : Site) (p : Bool) (ns1 ns2 : SiteNamespace)
    (h1 : c.provisionSite t p = .ok ns1)
    (h2 : c.provisionSite ((bind_static_site_contents c t sc p).2.2) p =
      .ok ns2) :
    staticContentCount
        ((bind_static_site_contents c
          ((bind_static_site_contents c t sc p).2.2) sc2 p).2.2) =
      staticContentCount t + 2 := by
  simp [bind_static_site_contents, h1, Target.add_kv_namespace,
    Target.kvNamespacesList] at h2 ⊢
  simp [h2, staticContentCount, Target.add_kv_namespace,
    Target.kvNamespacesList, List.countP_append, List.countP_cons]

/-- Witness for C10: after two successful invocations on the concrete
target the reserved name occurs twice in the binding list. -/
theorem bind_rebinding_appends_duplicate_witness :
    staticContentCount
        ((bind_static_site_contents cOk
          ((bind_static_site_contents cOk tSubdomainOk siteEx false).2.2)
          siteEx false).2.2) =
      staticContentCount tSubdomainOk + 2 :=
  bind_rebinding_appends_duplicate cOk tSubdomainOk siteEx siteEx false
    ⟨"site-ns"⟩ ⟨"site-ns"⟩ rfl rfl

/-- C4: for a binding that declares a bucket path, upload_buckets checks in
order that the path is non-empty, exists, and is a directory; each violation
yields its own distinct fatal error and the trace records no bulk-write
call. -/
theorem upload_buckets_precondition_errors (c : Collaborators) (t : Target)
    (n : KvNamespace) (rest : List KvNamespace) (b : String)
    (hb : n.bucket = some b) (ht : t.kvNamespacesList = n :: rest) :
    (b = "" → upload_buckets c t = (.error .bucketPathEmpty, [])) ∧
    (b ≠ "" → c.pathExists b = false →
      upload_buckets c t = (.error (.bucketMissing b), [])) ∧
    (b ≠ "" → c.pathExists b = true → c.pathIsDir b = false →
      upload_buckets c t = (.error (.bucketNotDirectory b), [])) ∧
    (PublishError.bucketPathEmpty ≠ .bucketMissing b ∧
      PublishError.bucketPathEmpty ≠ .bucketNotDirectory b ∧
      PublishError.bucketMissing b ≠ .bucketNotDirectory b) := by
  refine ⟨?_, ?_, ?_, by simp, by simp, by simp⟩
  · intro h0
    subst h0
    simp [upload_buckets, ht, uploadBucketsLoop, hb,
      show ("" : String).isEmpty = true from rfl]
  · intro h0 hex
    simp [upload_buckets, ht, uploadBucketsLoop, hb, String.isEmpty_iff,
      h0, hex]
  · intro h0 hex hdir
    simp [upload_buckets, ht, uploadBucketsLoop, hb, String.isEmpty_iff,
      h0, hex, hdir]

/-- Witness for C4: the binding with an empty bucket path fails with the
empty-path error and the trace holds no bulk-write call. -/
theorem upload_buckets_precondition_errors_witness :
    upload_buckets cOk tEmptyBucket = (.error .bucketPathEmpty, []) ∧
    PublishError.bucketPathEmpty ≠ .bucketMissing "" := by
  have h := upload_buckets_precondition_errors cOk tEmptyBucket
    ⟨"b", "i", some ""⟩ [] "" rfl (by decide)
  exact ⟨h.1 rfl, h.2.2.2.1⟩

/-- C5: the subdomain branch first looks up the registered subdomain and
aborts before the enable POST when the lookup fails; on success it POSTs
the fixed body consisting of the JSON object enabled:true with Content-type
application/json and returns the pattern composed from script name and
subdomain. -/
theorem publish_to_subdomain_behavior (c : Collaborators) (t : Target)
    (sd : String)
    (hsd : c.subdomainGet t.account_id = .ok sd)
    (hok : isSuccessStatus (c.postEnable
      ⟨sd_worker_addr t, "application/json",
        build_subdomain_request⟩).status = true) :
    publish_to_subdomain c t =
      (.ok ("https://" ++ t.name ++ "." ++ sd ++ ".workers.dev"),
        [Event.subdomainLookup t.account_id,
          Event.enableSubdomain
            ⟨sd_worker_addr t, "application/json",
              "\x7b\"enabled\":true\x7d"⟩]) ∧
    (∀ (c2 : Collaborators) (t2 : Target) (e : PublishError),
      c2.subdomainGet t2.account_id = .error e →
      publish_to_subdomain c2 t2 =
        (.error e, [Event.subdomainLookup t2.account_id])) := by
  constructor
  · have hok2 : isSuccessStatus (c.postEnable
        ⟨sd_worker_addr t, "application/json",
          "\x7b\"enabled\":true\x7d"⟩).status = true := hok
    simp [publish_to_subdomain, hsd, hok2, build_subdomain_request]
  · intro c2 t2 e he
    simp [publish_to_subdomain, he]

/-- Witness for C5: with script name S and registered subdomain foo the
resolved pattern is the subdomain URL, and the enable POST carries the
fixed JSON body. -/
theorem publish_to_subdomain_behavior_witness :
    publish_to_subdomain cOk tSubdomainOk =
      (.ok "https://S.foo.workers.dev",
        [Event.subdomainLookup "A",
          Event.enableSubdomain
            ⟨"https://api.cloudflare.com/client/v4/accounts/A/workers/scripts/S/subdomain",
              "application/json", "\x7b\"enabled\":true\x7d"⟩]) := by
  have h := publish_to_subdomain_behavior cOk tSubdomainOk "foo" rfl rfl
  exact h.1

/-- C6: with workers_dev false, a successful run registers the route built
from the zone and pattern of the target and reports exactly the route
pattern of the target as the exposure pattern. -/
theorem route_branch_reports_route_pattern (c : Collaborators) (t : Target)
    (z p : String) (form : UploadForm)
    (hw : t.workers_dev = false) (hz : t.zone_id = some z)
    (hr : t.route = some p)
    (hform : c.buildForm t = .ok form)
    (hst : isSuccessStatus (c.putScript (worker_addr t) form).status = true)
    (hpub : c.routePublish ⟨z, p⟩ = .ok ()) :
    build_and_publish_script c t =
      (.ok (), [Event.uploadScript (worker_addr t),
        Event.registerRoute ⟨z, p⟩, Event.success p]) := by
  simp [build_and_publish_script, hform, hst, hw, Route.new, hz, hr, hpub]

/-- Witness for C6: the route-mode target with route example.com/* reports
exactly example.com/*. -/
theorem route_branch_reports_route_pattern_witness :
    build_and_publish_script cOk tRouteOk =
      (.ok (), [Event.uploadScript (worker_addr tRouteOk),
        Event.registerRoute ⟨"Z", "example.com/*"⟩,
        Event.success "example.com/*"]) :=
  route_branch_reports_route_pattern cOk tRouteOk "Z" "example.com/*"
    ⟨"form"⟩ rfl rfl rfl rfl (by decide) rfl

/-- C7: a non-2xx answer from the upload endpoint aborts the run with an
error carrying that status and body, and neither exposure branch (route
registration, subdomain lookup or enable) is ever invoked. -/
theorem upload_failure_aborts_before_exposure (c : Collaborators)
    (t : Target) (form : UploadForm)
    (hform : c.buildForm t = .ok form)
    (hst : isSuccessStatus (c.putScript (worker_addr t) form).status =
      false) :
    build_and_publish_script c t =
      (.error (.remote (c.putScript (worker_addr t) form).status
          (c.putScript (worker_addr t) form).body),
        [Event.uploadScript (worker_addr t)]) ∧
    (∀ r, Event.registerRoute r ∉ (build_and_publish_script c t).2) ∧
    (∀ a, Event.subdomainLookup a ∉ (build_and_publish_script c t).2) ∧
    (∀ q, Event.enableSubdomain q ∉ (build_and_publish_script c t).2) := by
  have heq : build_and_publish_script c t =
      (.error (.remote (c.putScript (worker_addr t) form).status
          (c.putScript (worker_addr t) form).body),
        [Event.uploadScript (worker_addr t)]) := by
    simp [build_and_publish_script, hform, hst]
  refine ⟨heq, ?_, ?_, ?_⟩ <;> intro x <;> rw [heq] <;> simp

/-- Witness for C7: a 500 answer surfaces status 500 with body boom and the
trace holds only the upload call. -/
theorem upload_failure_aborts_before_exposure_witness :
    build_and_publish_script cUploadFails tRouteOk =
      (.error (.remote 500 "boom"),
        [Event.uploadScript (worker_addr tRouteOk)]) := by
  have h := upload_failure_aborts_before_exposure cUploadFails tRouteOk
    ⟨"form"⟩ rfl (by decide)
  exact h.1

lemma validate_event_not_in_bind (c : Collaborators) (t : Target) (sc : Site)
    (p : Bool) :
    Event.validateDescriptor ∉ (bind_static_site_contents c t sc p).2.1 := by
  cases h : c.provisionSite t p <;> simp [bind_static_site_contents, h]

lemma validate_event_not_in_loop (c : Collaborators) (l : List KvNamespace) :
    Event.validateDescriptor ∉ (uploadBucketsLoop c l).2 := by
  induction l with
  | nil => simp [uploadBucketsLoop]
  | cons n rest ih =>
    cases hb : n.bucket with
    | none => simpa [uploadBucketsLoop, hb] using ih
    | some b =>
      simp only [uploadBucketsLoop, hb]
      split_ifs with h1 h2 h3
      · simp
      · simp
      · simp
      · cases hs : c.syncBucket n.id b <;> simp [hs, ih]

lemma validate_event_not_in_subdomain (c : Collaborators) (t : Target) :
    Event.validateDescriptor ∉ (publish_to_subdomain c t).2 := by
  cases h : c.subdomainGet t.account_id with
  | error e => simp [publish_to_subdomain, h]
  | ok sd =>
    simp only [publish_to_subdomain, h]
    split_ifs <;> simp

lemma validate_event_not_in_build (c : Collaborators) (t : Target) :
    Event.validateDescriptor ∉ (build_and_publish_script c t).2 := by
  cases hf : c.buildForm t with
  | error e => simp [build_and_publish_script, hf]
  | ok form =>
    simp only [build_and_publish_script, hf]
    split_ifs with h1 h2
    · simp
    · cases hR : Route.new t with
      | error e => simp
      | ok route => cases hP : c.routePublish route <;> simp [hP]
    · have hsub := validate_event_not_in_subdomain c t
      cases hps : publish_to_subdomain c t with
      | mk r evs =>
        rw [hps] at hsub
        cases r <;> simpa using hsub

lemma validate_event_not_in_stages (c : Collaborators) (t : Target) :
    Event.validateDescriptor ∉ (publishStages c t).2.1 := by
  cases hwn : c.validateWorkerName t.name with
  | error e => simp [publishStages, hwn]
  | ok u =>
    have hbuild := validate_event_not_in_build c t
    have hafter : ∀ t1 : Target,
        Event.validateDescriptor ∉
          ((match upload_buckets c t1 with
            | (.error e, evsU) =>
              ((.error e : Except PublishError Unit), evsU, t1)
            | (.ok _, evsU) =>
              let r := build_and_publish_script c t1
              (r.1, evsU ++ r.2, t1)) :
            Except PublishError Unit × List Event × Target).2.1 := by
      intro t1
      have hloop := validate_event_not_in_loop c t1.kvNamespacesList
      cases hub : upload_buckets c t1 with
      | mk ru evsU =>
        rw [upload_buckets] at hub
        cases ru <;>
          simp_all [upload_buckets, validate_event_not_in_build c t1]
    cases hsite : t.site with
    | none =>
      simp only [publishStages, hwn, hsite]
      have hloop := validate_event_not_in_loop c t.kvNamespacesList
      cases hub : upload_buckets c t with
      | mk ru evsU =>
        rw [upload_buckets] at hub
        cases ru <;> simp_all [upload_buckets]
    | some sc =>
      simp only [publishStages, hwn, hsite]
      have hbind := validate_event_not_in_bind c t sc false
      cases hbd : bind_static_site_contents c t sc false with
      | mk rb rest =>
        rw [hbd] at hbind
        cases rb with
        | error e => simpa using hbind
        | ok u2 =>
          have hloop := validate_event_not_in_loop c rest.2.kvNamespacesList
          have hb2 := validate_event_not_in_build c rest.2
          cases hub : upload_buckets c rest.2 with
          | mk ru evsU =>
            rw [upload_buckets] at hub
            cases ru <;> simp_all [upload_buckets]

/-- C8: every publish run records descriptor validation first and exactly
once, and when validation fails the run stops with the aggregated error, an
otherwise empty trace (no network or filesystem operation) and an unchanged
target. -/
theorem publish_validates_first (c : Collaborators) (t : Target) :
    ((publish c t).2.1.head? = some Event.validateDescriptor ∧
      (publish c t).2.1.count Event.validateDescriptor = 1) ∧
    ∀ e, validate_target_required_fields_present t = .error e →
      publish c t =
        (.error (.missingFields e), [Event.validateDescriptor], t) := by
  refine ⟨⟨?_, ?_⟩, ?_⟩
  · cases hv : validate_target_required_fields_present t <;>
      simp [publish, hv]
  · cases hv : validate_target_required_fields_present t with
    | error e => simp [publish, hv]
    | ok u =>
      simp only [publish, hv]
      rw [List.count_cons_self,
        List.count_eq_zero.mpr (validate_event_not_in_stages c t)]
  · intro e he
    simp [publish, he]

/-- Witness for C8: on the invalid route-mode target, publish stops at
validation with the aggregated error, no stage event and the target as it
was. -/
theorem publish_validates_first_witness :
    (publish cOk tRouteMissing).2.1.head? = some Event.validateDescriptor ∧
    publish cOk tRouteMissing =
      (.error (.missingFields ⟨["zone_id", "route"], "fields", "are",
        "a route"⟩), [Event.validateDescriptor], tRouteMissing) := by
  have h := publish_validates_first cOk tRouteMissing
  exact ⟨h.1.1, h.2 ⟨["zone_id", "route"], "fields", "are", "a route"⟩
    rfl⟩

end Wrangler
